import Mathlib

/-!
# Shallow embedding of the MyShop storefront (`app.py`)

This file embeds the data model and the request handlers of the Flask
storefront relevant to the cart, checkout, order-view and password-reset
flows, and proves properties about them.

Conventions of the embedding:
* Database tables are lists of records; SQLAlchemy queries become list
  operations (`filter_by` → `List.filter` / `List.find?` over the rows).
* Prices (Python floats holding currency values) are modelled as rationals.
* `datetime` values are modelled as natural numbers (a point on a global
  clock); comparisons carry over directly.
* The Flask session is a record of the optional keys the handlers touch.
* Python attribute errors / ORM errors that would surface as a 500 page are
  modelled by an explicit error outcome; since such an exception aborts the
  handler before any commit of the pending changes the database component
  of the result is the unchanged input database.
* `uuid.uuid4().hex` is a 32-character lowercase hexadecimal string chosen
  by the environment; the handlers take it as an explicit argument
  (`uuidHex : List Char`).  Freshly assigned primary keys (`order.id`,
  `cart_item.id`) are likewise passed in as arguments.
-/

/-! ## Data model (the SQLAlchemy models) -/

/-- `User` rows, restricted to the columns the embedded handlers read. -/
structure MyUser where
  id : Nat
  email : String
  password_hash : String
deriving DecidableEq, Repr

/-- `Product` rows, restricted to the columns the cart/checkout flow reads.
`price` is the `db.Float` column holding a currency amount. -/
structure Product where
  id : Nat
  name : String
  price : ℚ
deriving DecidableEq, Repr

/-- `Cart` rows: one line item of a user's cart. -/
structure CartItem where
  id : Nat
  user_id : Nat
  product_id : Nat
  quantity : Nat
deriving DecidableEq, Repr

/-- `Order` rows.  `order_number` is kept as a character list so that the
`ORD-…` format can be stated precisely. -/
structure Order where
  id : Nat
  order_number : List Char
  user_id : Nat
  total_amount : ℚ
  shipping : ℚ
  status : String
deriving DecidableEq, Repr

/-- `OrderItem` rows: the snapshot of one cart line taken at checkout. -/
structure OrderItem where
  order_id : Nat
  product_id : Nat
  user_id : Nat
  product_name : String
  unit_price : ℚ
  quantity : Nat
deriving DecidableEq, Repr

/-- The persistent store: the four tables the embedded handlers touch. -/
structure DB where
  users : List MyUser
  products : List Product
  carts : List CartItem
  orders : List Order
  order_items : List OrderItem
deriving DecidableEq, Repr

/-- The Flask session, restricted to the keys the embedded handlers touch.
`none` models the key being absent. -/
structure Session where
  payment_method : Option String
  reset_email : Option String
  reset_code : Option String
  reset_expiry : Option Nat
deriving DecidableEq, Repr

/-- `item.product`: resolving a cart line's foreign key against the product
table (`db.relationship` lookup).  `none` models a dangling reference. -/
def getProduct (db : DB) (pid : Nat) : Option Product :=
  db.products.find? (fun p => p.id == pid)

/-- `Cart.query.filter_by(user_id=current_user.id).all()`. -/
def userCart (db : DB) (uid : Nat) : List CartItem :=
  db.carts.filter (fun it => it.user_id == uid)

/-! ## Helpers (`generate_order_number` and Python string/truthiness bits) -/

/-- ASCII effect of Python's `str.upper()` on one character: a lowercase
ASCII letter (codes 97–122) is shifted down by 32, anything else is kept. -/
def pyUpperChar (c : Char) : Char :=
  if 97 ≤ c.toNat ∧ c.toNat ≤ 122 then Char.ofNat (c.toNat - 32) else c

/-- `generate_order_number()`: `f"ORD-{uuid.uuid4().hex[:10].upper()}"`,
with the 32-character lowercase-hex `uuid4().hex` passed in as `uuidHex`. -/
def generate_order_number (uuidHex : List Char) : List Char :=
  ("ORD-".data) ++ (uuidHex.take 10).map pyUpperChar

/-- Python's `x or d` on a numeric value: `0` is falsy, so the fallback is
returned exactly when `x = 0` (mirrors `item.product.price or 0`). -/
def truthyOr (x d : ℚ) : ℚ :=
  if x = 0 then d else x

/-- Characters of a lowercase hexadecimal digit (`uuid4().hex` alphabet). -/
def isLowerHexDigit (c : Char) : Bool :=
  (48 ≤ c.toNat && c.toNat ≤ 57) || (97 ≤ c.toNat && c.toNat ≤ 102)

/-- Characters of an uppercase hexadecimal digit. -/
def isUpperHexDigit (c : Char) : Bool :=
  (48 ≤ c.toNat && c.toNat ≤ 57) || (65 ≤ c.toNat && c.toNat ≤ 70)

/-! ## Cart view and totals -/

/-- The total of the cart view (`/cart`):
`sum((item.product.price if item.product else 0) * item.quantity …)`.
A dangling product reference contributes `0`. -/
def cartViewTotal (db : DB) (items : List CartItem) : ℚ :=
  (items.map (fun it =>
    (match getProduct db it.product_id with
     | some p => p.price
     | none => 0) * (it.quantity : ℚ))).sum

/-- Resolving every line of a cart against the product table, as the
confirm/checkout loops do via `item.product.…`: the first dangling
reference raises `AttributeError` (`none`). -/
def resolveItems (db : DB) : List CartItem → Option (List (Product × CartItem))
  | [] => some []
  | it :: rest =>
    match getProduct db it.product_id, resolveItems db rest with
    | some p, some l => some ((p, it) :: l)
    | _, _ => none

/-- The total of the confirm and checkout handlers:
`sum((item.product.price or 0) * item.quantity …)`.  Unlike the cart view
this dereferences `item.product` unconditionally, so a dangling product
reference is an error (`none`), while a falsy price is replaced by `0`. -/
def checkoutTotal (db : DB) (items : List CartItem) : Option ℚ :=
  (resolveItems db items).map (fun l =>
    (l.map (fun pi => truthyOr pi.1.price 0 * (pi.2.quantity : ℚ))).sum)

/-! ## Cart mutation handlers -/

/-- The row predicate of `filter_by(user_id=uid, product_id=pid)`. -/
def samePair (uid pid : Nat) (it : CartItem) : Bool :=
  it.user_id == uid && it.product_id == pid

/-- `cart_add` (`POST /cart/add/<product_id>`): merge-or-create.  The row
found by `filter_by(user_id=…, product_id=…).first()` gets its quantity
incremented in place; `bumpFirst` performs that in-place update on the
table. -/
def bumpFirst (l : List CartItem) (uid pid qty : Nat) : List CartItem :=
  match l with
  | [] => []
  | it :: rest =>
    if samePair uid pid it then
      { it with quantity := it.quantity + qty } :: rest
    else
      it :: bumpFirst rest uid pid qty

/-- `cart_add(product_id)` for user `uid` adding quantity `qty`; a fresh
row gets the primary key `newId`. -/
def cart_add (db : DB) (uid pid qty newId : Nat) : DB :=
  match db.carts.find? (samePair uid pid) with
  | some _ => { db with carts := bumpFirst db.carts uid pid qty }
  | none => { db with carts := db.carts ++ [⟨newId, uid, pid, qty⟩] }

/-- Errors raised by the ORM layer.  `invalidRequest` models SQLAlchemy's
`InvalidRequestError`, raised when `filter_by` receives a keyword that is
not a mapped attribute of the entity. -/
inductive QueryError where
  | invalidRequest
deriving DecidableEq, Repr

/-- Dynamic attribute lookup on a `Cart` row, as `filter_by` performs it:
only the mapped columns resolve. -/
def cartAttr (it : CartItem) : String → Option Nat
  | "id" => some it.id
  | "user_id" => some it.user_id
  | "product_id" => some it.product_id
  | "quantity" => some it.quantity
  | _ => none

/-- The mapped column names of `Cart`. -/
def isCartColumn (name : String) : Bool :=
  name == "id" || name == "user_id" || name == "product_id" || name == "quantity"

/-- `Cart.query.filter_by(**conds)`: raises `InvalidRequestError` if any
keyword names no mapped attribute, otherwise filters the rows. -/
def cartFilterBy (carts : List CartItem) (conds : List (String × Nat)) :
    Except QueryError (List CartItem) :=
  if conds.all (fun c => isCartColumn c.1) then
    Except.ok (carts.filter (fun it => conds.all (fun c => cartAttr it c.1 == some c.2)))
  else
    Except.error QueryError.invalidRequest

/-- Outcome of `cart_remove`. -/
inductive RemoveOutcome where
  | notFound
  | removed
deriving DecidableEq, Repr

/-- `cart_remove` (`/cart/remove/<item_id>`): the source queries
`Cart.query.filter_by(item_id=item_id, user_id=current_user.id)` — note the
keyword `item_id`, which is not a column of `Cart` (the column is `id`). -/
def cart_remove (db : DB) (uid item_id : Nat) :
    Except QueryError (DB × RemoveOutcome) :=
  match cartFilterBy db.carts [("item_id", item_id), ("user_id", uid)] with
  | Except.error e => Except.error e
  | Except.ok [] => Except.ok (db, RemoveOutcome.notFound)
  | Except.ok (item :: _) =>
      Except.ok ({ db with carts := db.carts.erase item }, RemoveOutcome.removed)

/-! ## Checkout flow (`/cart/confirm`, `/cart/checkout`) -/

/-- Outcome of the confirm handler. -/
inductive ConfirmOutcome where
  | redirectCart                -- empty-cart guard
  | attrError                   -- dangling product while computing the total
  | redirectConfirm             -- invalid / missing payment method on POST
  | redirectCheckout            -- method accepted, stored in session
  | render (total : ℚ)          -- GET: page rendered with the total
deriving DecidableEq, Repr

/-- `cart_confirm` for user `uid`.  `form` is `none` for a GET request and
`some m` for a POST whose `payment_method` field is `m` (itself optional,
as `request.form.get` may find no such field). -/
def cart_confirm (db : DB) (s : Session) (uid : Nat)
    (form : Option (Option String)) : DB × Session × ConfirmOutcome :=
  let cart_items := userCart db uid
  if cart_items.isEmpty then
    (db, s, ConfirmOutcome.redirectCart)
  else
    match checkoutTotal db cart_items with
    | none => (db, s, ConfirmOutcome.attrError)
    | some total =>
      match form with
      | none => (db, s, ConfirmOutcome.render total)
      | some pm =>
        if pm = some "card" ∨ pm = some "cod" then
          ({ db with }, { s with payment_method := pm },
            ConfirmOutcome.redirectCheckout)
        else
          (db, s, ConfirmOutcome.redirectConfirm)

/-- Outcome of the checkout handler. -/
inductive CheckoutOutcome where
  | redirectCart                -- empty-cart guard, nothing created
  | redirectConfirm             -- no payment method in session
  | attrError                   -- dangling product while computing the total
  | placed (order_id : Nat)     -- success: redirect to the confirmation view
  | unexpectedRedirectCart      -- unknown method: order created, error flash
deriving DecidableEq, Repr

/-- `cart_checkout` for user `uid`: the commit step.  `uuidHex` is the
`uuid4().hex` string drawn for the order number and `oid` the primary key
the store assigns to the new order.  Follows the source line by line:
empty-cart guard; `session.pop("payment_method")`; recompute the total;
create the order (status `Processing` for `cod`, else `Awaiting Payment`);
snapshot each cart line into an `OrderItem` and delete it; finally for
`card` set the status to `Paid`. -/
def cart_checkout (db : DB) (s : Session) (uid : Nat)
    (uuidHex : List Char) (oid : Nat) : DB × Session × CheckoutOutcome :=
  let cart_items := userCart db uid
  if cart_items.isEmpty then
    (db, s, CheckoutOutcome.redirectCart)
  else
    let pm := s.payment_method
    let s' : Session := { s with payment_method := none }
    match pm with
    | none => (db, s', CheckoutOutcome.redirectConfirm)
    | some payment_method =>
      match resolveItems db cart_items with
      | none => (db, s', CheckoutOutcome.attrError)
      | some resolved =>
        let total : ℚ :=
          (resolved.map (fun pi => truthyOr pi.1.price 0 * (pi.2.quantity : ℚ))).sum
        let status : String :=
          if payment_method = "cod" then "Processing"
          else if payment_method = "card" then "Paid"
          else "Awaiting Payment"
        let order : Order :=
          { id := oid
            order_number := generate_order_number uuidHex
            user_id := uid
            total_amount := total
            shipping := 0
            status := status }
        let newItems : List OrderItem :=
          resolved.map (fun pi =>
            { order_id := oid
              product_id := pi.1.id
              user_id := uid
              product_name := pi.1.name
              unit_price := pi.1.price
              quantity := pi.2.quantity })
        let db' : DB :=
          { db with
            orders := db.orders ++ [order]
            order_items := db.order_items ++ newItems
            carts := db.carts.filter (fun it => !(it.user_id == uid)) }
        if payment_method = "cod" ∨ payment_method = "card" then
          (db', s', CheckoutOutcome.placed oid)
        else
          (db', s', CheckoutOutcome.unexpectedRedirectCart)

/-- `order_confirmation` (`/order/<order_id>/confirmation`):
`Order.query.get_or_404(order_id)`.  The authenticated user `uid` is never
consulted; `none` models the 404 page. -/
def order_confirmation (db : DB) (uid : Nat) (order_id : Nat) : Option Order :=
  db.orders.find? (fun o => o.id == order_id)

/-! ## Password-reset flow (`/verify-code`, `/reset-password`) -/

/-- Outcome of the code-verification handler. -/
inductive VerifyOutcome where
  | restartForgot               -- redirect to `/forgot-password`
  | retryVerify                 -- redirect back to `/verify-code`
  | verified                    -- redirect on to `/reset-password`
deriving DecidableEq, Repr

/-- `verify_code` (POST): `code` is the submitted form value after
`.strip()`, `now` the current clock.  Mirrors the source's guards in
order: falsy stored code or absent expiry restart the flow, a passed
expiry restarts the flow, a mismatch retries, an exact match advances. -/
def verify_code (s : Session) (now : Nat) (code : String) : VerifyOutcome :=
  match s.reset_code, s.reset_expiry with
  | some saved_code, some expiry =>
    if saved_code = "" then VerifyOutcome.restartForgot
    else if expiry < now then VerifyOutcome.restartForgot
    else if code ≠ saved_code then VerifyOutcome.retryVerify
    else VerifyOutcome.verified
  | _, _ => VerifyOutcome.restartForgot

/-- Outcome of the reset-password handler. -/
inductive ResetOutcome where
  | redirectForgot              -- no `reset_email` in the session
  | notFound                    -- `first_or_404`: no user with that email
  | render                      -- GET: form rendered
  | retrySame                   -- empty or mismatched passwords
  | success                     -- password rehashed, session cleared
deriving DecidableEq, Repr

/-- `reset_password`: gated only on `session["reset_email"]`.  `hash` is
the password-hashing collaborator (`generate_password_hash`); `isPost`
distinguishes the submit from the form view. -/
def reset_password (db : DB) (s : Session) (hash : String → String)
    (isPost : Bool) (newPw confirmPw : String) : DB × Session × ResetOutcome :=
  match s.reset_email with
  | none => (db, s, ResetOutcome.redirectForgot)
  | some email =>
    match db.users.find? (fun u => u.email == email) with
    | none => (db, s, ResetOutcome.notFound)
    | some user =>
      if !isPost then (db, s, ResetOutcome.render)
      else if newPw = "" ∨ newPw ≠ confirmPw then (db, s, ResetOutcome.retrySame)
      else
        ({ db with users := db.users.map (fun u =>
            if u.id == user.id then { u with password_hash := hash newPw } else u) },
          { s with reset_email := none, reset_code := none, reset_expiry := none },
          ResetOutcome.success)

/-! ## General lemmas about the embedding -/

theorem toNat_ofNat_of_lt {n : Nat} (h : n < 55296) : (Char.ofNat n).toNat = n := by
  unfold Char.ofNat
  rw [dif_pos (Or.inl h)]
  rfl

/-- `str.upper()` sends a lowercase hex digit to the corresponding
uppercase hex digit. -/
theorem isUpperHexDigit_pyUpperChar {c : Char} (h : isLowerHexDigit c = true) :
    isUpperHexDigit (pyUpperChar c) = true := by
  unfold isLowerHexDigit at h
  unfold pyUpperChar isUpperHexDigit
  simp only [Bool.or_eq_true, Bool.and_eq_true, decide_eq_true_eq] at h ⊢
  rcases h with ⟨h1, h2⟩ | ⟨h1, h2⟩
  · rw [if_neg (by omega)]
    exact Or.inl ⟨h1, h2⟩
  · rw [if_pos ⟨h1, by omega⟩]
    rw [toNat_ofNat_of_lt (by omega)]
    omega

/-- Format of a generated order number: `ORD-` followed by 10 uppercase
hex characters, provided the uuid hex string is long enough and lowercase
hex (as `uuid4().hex` always is). -/
theorem generate_order_number_format (uuidHex : List Char)
    (hlen : 10 ≤ uuidHex.length)
    (hhex : ∀ c ∈ uuidHex, isLowerHexDigit c = true) :
    ∃ tail : List Char, generate_order_number uuidHex = "ORD-".data ++ tail ∧
      tail.length = 10 ∧ ∀ c ∈ tail, isUpperHexDigit c = true := by
  refine ⟨(uuidHex.take 10).map pyUpperChar, rfl, ?_, ?_⟩
  · rw [List.length_map, List.length_take]
    omega
  · intro c hc
    rw [List.mem_map] at hc
    obtain ⟨a, ha, rfl⟩ := hc
    exact isUpperHexDigit_pyUpperChar (hhex a (List.mem_of_mem_take ha))

/-- `price or 0` is the identity on prices. -/
theorem truthyOr_zero (x : ℚ) : truthyOr x 0 = x := by
  unfold truthyOr
  split <;> simp_all

/-- A successful resolution pairs every cart line, in order, with its
product. -/
theorem resolveItems_map_snd {db : DB} :
    ∀ {items : List CartItem} {resolved : List (Product × CartItem)},
      resolveItems db items = some resolved → resolved.map Prod.snd = items := by
  intro items
  induction items with
  | nil => intro resolved h; cases h; rfl
  | cons it rest ih =>
    intro resolved h
    unfold resolveItems at h
    rcases hp : getProduct db it.product_id with _ | p <;> rw [hp] at h
    · cases h
    · rcases hr : resolveItems db rest with _ | l <;> rw [hr] at h
      · cases h
      · cases h
        simp [ih hr]

/-- A successful resolution has one entry per cart line. -/
theorem resolveItems_length {db : DB} {items : List CartItem}
    {resolved : List (Product × CartItem)}
    (h : resolveItems db items = some resolved) :
    resolved.length = items.length := by
  have := resolveItems_map_snd h
  calc resolved.length = (resolved.map Prod.snd).length := (List.length_map _ _).symm
    _ = items.length := by rw [this]

/-- Every pair of a successful resolution is a genuine foreign-key match:
the product component is what the store resolves for the line. -/
theorem resolveItems_mem {db : DB} :
    ∀ {items : List CartItem} {resolved : List (Product × CartItem)},
      resolveItems db items = some resolved →
      ∀ pi ∈ resolved, getProduct db pi.2.product_id = some pi.1 := by
  intro items
  induction items with
  | nil => intro resolved h; cases h; intro pi hpi; cases hpi
  | cons it rest ih =>
    intro resolved h
    unfold resolveItems at h
    rcases hp : getProduct db it.product_id with _ | p <;> rw [hp] at h
    · cases h
    · rcases hr : resolveItems db rest with _ | l <;> rw [hr] at h
      · cases h
      · cases h
        intro pi hpi
        rcases List.mem_cons.mp hpi with rfl | hmem
        · exact hp
        · exact ih hr pi hmem

/-! ## Claim theorems -/

/-- C1: for a user with a non-empty cart and a selected payment method
(`cod` or `card`), a successful checkout commit creates exactly one Order,
its `total_amount` is recomputed as the sum over the current cart items of
unit price times quantity, its `order_number` is `ORD-` followed by 10
uppercase hex characters, and its final status is `Processing` for `cod`
and `Paid` for `card`. -/
theorem checkout_commit_single_order
    (db : DB) (s : Session) (uid oid : Nat) (uuidHex : List Char)
    (method : String) (resolved : List (Product × CartItem))
    (hne : userCart db uid ≠ [])
    (hpm : s.payment_method = some method)
    (hm : method = "cod" ∨ method = "card")
    (hres : resolveItems db (userCart db uid) = some resolved)
    (hlen : 10 ≤ uuidHex.length)
    (hhex : ∀ c ∈ uuidHex, isLowerHexDigit c = true) :
    (cart_checkout db s uid uuidHex oid).2.2 = CheckoutOutcome.placed oid ∧
    (cart_checkout db s uid uuidHex oid).1.orders = db.orders ++
      [{ id := oid
         order_number := generate_order_number uuidHex
         user_id := uid
         total_amount :=
           (resolved.map (fun pi => pi.1.price * (pi.2.quantity : ℚ))).sum
         shipping := 0
         status := if method = "cod" then "Processing" else "Paid" }] ∧
    (∃ tail : List Char,
      generate_order_number uuidHex = "ORD-".data ++ tail ∧
      tail.length = 10 ∧ ∀ c ∈ tail, isUpperHexDigit c = true) := by
  have hempty : (userCart db uid).isEmpty = false := by
    cases h : userCart db uid with
    | nil => exact absurd h hne
    | cons a l => rfl
  have htot : (fun pi : Product × CartItem => truthyOr pi.1.price 0 * (pi.2.quantity : ℚ))
      = (fun pi : Product × CartItem => pi.1.price * (pi.2.quantity : ℚ)) := by
    funext pi
    rw [truthyOr_zero]
  have hmm : (method = "cod" ∨ method = "card") = True := eq_true hm
  unfold cart_checkout
  simp only [hempty, Bool.false_eq_true, if_false, hpm, hres, htot, hmm, if_true]
  rcases hm with rfl | rfl
  · exact ⟨trivial, rfl, generate_order_number_format uuidHex hlen hhex⟩
  · exact ⟨trivial, rfl, generate_order_number_format uuidHex hlen hhex⟩

/-- A concrete store used to exercise the theorems: two products, user 1
holding both in the cart (quantities 2 and 1). -/
def exDB : DB :=
  { users := [⟨1, "a@example.com", "h0"⟩]
    products := [⟨1, "Widget", 10⟩, ⟨2, "Gadget", 5⟩]
    carts := [⟨1, 1, 1, 2⟩, ⟨2, 1, 2, 1⟩]
    orders := []
    order_items := [] }

/-- A session in which user 1 has just confirmed with method `cod`. -/
def exSession : Session :=
  { payment_method := some "cod"
    reset_email := none
    reset_code := none
    reset_expiry := none }

/-- A concrete draw of `uuid4().hex` (truncated view suffices ≥ 10). -/
def exUuid : List Char := "3f2a9c04bd7e8a1b2c3d4e5f60718293".data

/-- The resolution of user 1's cart in `exDB`. -/
def exResolved : List (Product × CartItem) :=
  [(⟨1, "Widget", 10⟩, ⟨1, 1, 1, 2⟩), (⟨2, "Gadget", 5⟩, ⟨2, 1, 2, 1⟩)]

/-- Witness for C1: the theorem applied to the concrete store. -/
theorem checkout_commit_single_order_witness :
    (cart_checkout exDB exSession 1 exUuid 7).2.2 = CheckoutOutcome.placed 7 ∧
    (cart_checkout exDB exSession 1 exUuid 7).1.orders = exDB.orders ++
      [{ id := 7
         order_number := generate_order_number exUuid
         user_id := 1
         total_amount :=
           (exResolved.map (fun pi => pi.1.price * (pi.2.quantity : ℚ))).sum
         shipping := 0
         status := if "cod" = "cod" then "Processing" else "Paid" }] ∧
    (∃ tail : List Char,
      generate_order_number exUuid = "ORD-".data ++ tail ∧
      tail.length = 10 ∧ ∀ c ∈ tail, isUpperHexDigit c = true) :=
  checkout_commit_single_order exDB exSession 1 7 exUuid "cod" exResolved
    (by decide) rfl (Or.inl rfl) (by decide) (by decide) (by decide)

/-- Filtering a user's rows out and then selecting them back is empty. -/
theorem filter_user_of_drained (uid : Nat) :
    ∀ l : List CartItem,
      (l.filter (fun it => !(it.user_id == uid))).filter
        (fun it => it.user_id == uid) = [] := by
  intro l
  induction l with
  | nil => rfl
  | cons it rest ih =>
    by_cases h : it.user_id = uid
    · rw [List.filter_cons_of_neg (by simp [h])]
      exact ih
    · rw [List.filter_cons_of_pos (by simp [h]),
          List.filter_cons_of_neg (by simp [h])]
      exact ih

/-- C2: after a successful checkout commit the user's cart holds zero
rows, the OrderItems appended for the new order are exactly one snapshot
per cart line present at commit time (so their number equals the
pre-commit cart size), and each snapshot carries the `name`/`price` of the
product as resolved from the store at commit time. -/
theorem checkout_commit_snapshots
    (db : DB) (s : Session) (uid oid : Nat) (uuidHex : List Char)
    (method : String) (resolved : List (Product × CartItem))
    (hne : userCart db uid ≠ [])
    (hpm : s.payment_method = some method)
    (hm : method = "cod" ∨ method = "card")
    (hres : resolveItems db (userCart db uid) = some resolved) :
    userCart (cart_checkout db s uid uuidHex oid).1 uid = [] ∧
    (cart_checkout db s uid uuidHex oid).1.order_items = db.order_items ++
      resolved.map (fun pi =>
        { order_id := oid
          product_id := pi.1.id
          user_id := uid
          product_name := pi.1.name
          unit_price := pi.1.price
          quantity := pi.2.quantity }) ∧
    (resolved.map (fun pi : Product × CartItem =>
        ({ order_id := oid, product_id := pi.1.id, user_id := uid,
           product_name := pi.1.name, unit_price := pi.1.price,
           quantity := pi.2.quantity } : OrderItem))).length
      = (userCart db uid).length ∧
    ∀ pi ∈ resolved, getProduct db pi.2.product_id = some pi.1 := by
  have hempty : (userCart db uid).isEmpty = false := by
    cases h : userCart db uid with
    | nil => exact absurd h hne
    | cons a l => rfl
  have hmm : (method = "cod" ∨ method = "card") = True := eq_true hm
  have hlen : resolved.length = (userCart db uid).length := resolveItems_length hres
  refine ⟨?_, ?_, ?_, resolveItems_mem hres⟩
  · unfold cart_checkout
    simp only [hempty, Bool.false_eq_true, if_false, hpm, hres, hmm, if_true]
    rcases hm with rfl | rfl <;>
      · unfold userCart
        exact filter_user_of_drained uid db.carts
  · unfold cart_checkout
    simp only [hempty, Bool.false_eq_true, if_false, hpm, hres, hmm, if_true]
  · rw [List.length_map]
    exact hlen

/-- Witness for C2: the theorem applied to the concrete store. -/
theorem checkout_commit_snapshots_witness :
    userCart (cart_checkout exDB exSession 1 exUuid 7).1 1 = [] ∧
    (cart_checkout exDB exSession 1 exUuid 7).1.order_items = exDB.order_items ++
      exResolved.map (fun pi =>
        { order_id := 7
          product_id := pi.1.id
          user_id := 1
          product_name := pi.1.name
          unit_price := pi.1.price
          quantity := pi.2.quantity }) ∧
    (exResolved.map (fun pi : Product × CartItem =>
        ({ order_id := 7, product_id := pi.1.id, user_id := 1,
           product_name := pi.1.name, unit_price := pi.1.price,
           quantity := pi.2.quantity } : OrderItem))).length
      = (userCart exDB 1).length ∧
    ∀ pi ∈ exResolved, getProduct exDB pi.2.product_id = some pi.1 :=
  checkout_commit_snapshots exDB exSession 1 7 exUuid "cod" exResolved
    (by decide) rfl (Or.inl rfl) (by decide)

/-- C3: for a user with an empty cart, both the confirm handler and the
checkout handler redirect back to the cart view, leaving the store and the
session untouched — in particular no Order and no OrderItem is created. -/
theorem empty_cart_never_orders
    (db : DB) (s : Session) (uid : Nat) (form : Option (Option String))
    (uuidHex : List Char) (oid : Nat)
    (hempty : userCart db uid = []) :
    cart_confirm db s uid form = (db, s, ConfirmOutcome.redirectCart) ∧
    cart_checkout db s uid uuidHex oid = (db, s, CheckoutOutcome.redirectCart) := by
  constructor
  · unfold cart_confirm
    simp [hempty]
  · unfold cart_checkout
    simp [hempty]

/-- Witness for C3: user 2 holds no cart rows in the concrete store. -/
theorem empty_cart_never_orders_witness :
    cart_confirm exDB exSession 2 (some (some "cod")) = (exDB, exSession, ConfirmOutcome.redirectCart) ∧
    cart_checkout exDB exSession 2 exUuid 7 = (exDB, exSession, CheckoutOutcome.redirectCart) :=
  empty_cart_never_orders exDB exSession 2 (some (some "cod")) exUuid 7 (by decide)

/-- The empty-cart guard of the checkout handler. -/
theorem cart_checkout_empty (db : DB) (s : Session) (uid : Nat)
    (u : List Char) (o : Nat) (h : userCart db uid = []) :
    cart_checkout db s uid u o = (db, s, CheckoutOutcome.redirectCart) := by
  unfold cart_checkout
  simp [h]

/-- Exhaustive case analysis of one checkout request: either no order was
created and the order table is untouched, or exactly one order was
appended — and then the user's cart rows were all deleted and the
payment method was popped from the session. -/
theorem checkout_cases (db : DB) (s : Session) (uid : Nat)
    (u : List Char) (o : Nat) :
    (cart_checkout db s uid u o).1.orders = db.orders ∨
    ((cart_checkout db s uid u o).1.orders.length = db.orders.length + 1 ∧
     userCart (cart_checkout db s uid u o).1 uid = [] ∧
     (cart_checkout db s uid u o).2.1.payment_method = none) := by
  unfold cart_checkout
  dsimp only
  split
  · exact Or.inl rfl
  · split
    · exact Or.inl rfl
    · split
      · exact Or.inl rfl
      · split
        · refine Or.inr ⟨by simp, ?_, rfl⟩
          unfold userCart
          exact filter_user_of_drained uid db.carts
        · refine Or.inr ⟨by simp, ?_, rfl⟩
          unfold userCart
          exact filter_user_of_drained uid db.carts

/-- C4: the payment method is single-use.  A commit that finds no payment
method in the session (cart non-empty) redirects back to the confirm step
with store and session untouched; whenever a commit does create an order
the method has been popped from the session; and two successive commit
requests starting from one confirmed session never create two orders. -/
theorem payment_method_single_use
    (db : DB) (s : Session) (uid : Nat) (u1 u2 : List Char) (o1 o2 : Nat)
    (hne : userCart db uid ≠ []) :
    (s.payment_method = none →
      cart_checkout db s uid u1 o1 = (db, s, CheckoutOutcome.redirectConfirm)) ∧
    ((cart_checkout db s uid u1 o1).1.orders ≠ db.orders →
      (cart_checkout db s uid u1 o1).2.1.payment_method = none) ∧
    (cart_checkout (cart_checkout db s uid u1 o1).1
        (cart_checkout db s uid u1 o1).2.1 uid u2 o2).1.orders.length
      ≤ db.orders.length + 1 := by
  have hempty : (userCart db uid).isEmpty = false := by
    cases h : userCart db uid with
    | nil => exact absurd h hne
    | cons a l => rfl
  refine ⟨?_, ?_, ?_⟩
  · intro hpm
    obtain ⟨pm, re, rc, rx⟩ := s
    cases hpm
    unfold cart_checkout
    simp [hempty]
  · intro hdiff
    rcases checkout_cases db s uid u1 o1 with h | ⟨_, _, hpop⟩
    · exact absurd h hdiff
    · exact hpop
  · rcases checkout_cases db s uid u1 o1 with h | ⟨hlen, hdrain, _⟩
    · rcases checkout_cases (cart_checkout db s uid u1 o1).1
        (cart_checkout db s uid u1 o1).2.1 uid u2 o2 with h2 | ⟨hlen2, _, _⟩
      · rw [h2, h]
        exact Nat.le_succ _
      · rw [hlen2, h]
    · rw [cart_checkout_empty _ _ _ _ _ hdrain]
      exact le_of_eq hlen

/-- Witness for C4: the concrete store with a freshly confirmed session
and with the method-less session. -/
theorem payment_method_single_use_witness :
    (({ exSession with payment_method := none } : Session).payment_method = none →
      cart_checkout exDB { exSession with payment_method := none } 1 exUuid 7
        = (exDB, { exSession with payment_method := none }, CheckoutOutcome.redirectConfirm)) ∧
    ((cart_checkout exDB { exSession with payment_method := none } 1 exUuid 7).1.orders ≠ exDB.orders →
      (cart_checkout exDB { exSession with payment_method := none } 1 exUuid 7).2.1.payment_method = none) ∧
    (cart_checkout (cart_checkout exDB { exSession with payment_method := none } 1 exUuid 7).1
        (cart_checkout exDB { exSession with payment_method := none } 1 exUuid 7).2.1 1 exUuid 8).1.orders.length
      ≤ exDB.orders.length + 1 :=
  payment_method_single_use exDB { exSession with payment_method := none } 1 exUuid exUuid 7 8 (by decide)

/-- The (user, product) cart invariant: at most one row per pair. -/
def atMostOnePerPair (l : List CartItem) : Prop :=
  ∀ u p : Nat, (l.filter (samePair u p)).length ≤ 1

/-- The in-place quantity update never changes which rows match which
(user, product) pair. -/
theorem length_filter_bumpFirst (u p uid pid qty : Nat) :
    ∀ l : List CartItem,
      ((bumpFirst l uid pid qty).filter (samePair u p)).length
        = (l.filter (samePair u p)).length := by
  intro l
  induction l with
  | nil => rfl
  | cons it rest ih =>
    unfold bumpFirst
    by_cases h : samePair uid pid it
    · rw [if_pos h]
      have hkey : samePair u p { it with quantity := it.quantity + qty }
          = samePair u p it := by
        unfold samePair
        rfl
      by_cases h2 : samePair u p it
      · rw [List.filter_cons_of_pos (hkey.trans h2),
            List.filter_cons_of_pos h2]
        rfl
      · rw [List.filter_cons_of_neg (by rw [hkey]; simpa using h2),
            List.filter_cons_of_neg (by simpa using h2)]
    · rw [if_neg h]
      by_cases h2 : samePair u p it
      · rw [List.filter_cons_of_pos h2, List.filter_cons_of_pos h2]
        simpa using ih
      · rw [List.filter_cons_of_neg (by simpa using h2),
            List.filter_cons_of_neg (by simpa using h2)]
        exact ih

/-- Unfolding equation of `bumpFirst` on a cons cell. -/
theorem bumpFirst_cons (it : CartItem) (rest : List CartItem) (uid pid qty : Nat) :
    bumpFirst (it :: rest) uid pid qty =
      if samePair uid pid it then { it with quantity := it.quantity + qty } :: rest
      else it :: bumpFirst rest uid pid qty := rfl

/-- Updating a table that ends in the unique matching row bumps exactly
that row. -/
theorem bumpFirst_append_fresh (uid pid qty : Nat) (a : CartItem)
    (ha : samePair uid pid a = true) :
    ∀ l : List CartItem, (∀ x ∈ l, ¬ samePair uid pid x = true) →
      bumpFirst (l ++ [a]) uid pid qty
        = l ++ [{ a with quantity := a.quantity + qty }] := by
  intro l
  induction l with
  | nil =>
    intro _
    rw [List.nil_append, List.nil_append, bumpFirst_cons, if_pos ha]
  | cons it rest ih =>
    intro hl
    rw [List.cons_append, bumpFirst_cons,
        if_neg (by simpa using hl it (List.mem_cons_self it rest)),
        ih (fun x hx => hl x (List.mem_cons_of_mem it hx)), List.cons_append]

/-- A cart whose rows have pairwise distinct (user, product) keys has at
most one row per pair. -/
theorem atMostOnePerPair_of_pairwise {l : List CartItem}
    (h : l.Pairwise (fun a b => ¬(a.user_id = b.user_id ∧ a.product_id = b.product_id))) :
    atMostOnePerPair l := by
  induction l with
  | nil =>
    intro u p
    exact Nat.zero_le 1
  | cons a rest ih =>
    rcases List.pairwise_cons.mp h with ⟨ha, hrest⟩
    intro u p
    by_cases hm : samePair u p a
    · have hkeys : a.user_id = u ∧ a.product_id = p := by
        unfold samePair at hm
        simpa using hm
      rw [List.filter_cons_of_pos hm]
      have hnil : rest.filter (samePair u p) = [] := by
        rw [List.filter_eq_nil_iff]
        intro x hx hpx
        have hx' : x.user_id = u ∧ x.product_id = p := by
          unfold samePair at hpx
          simpa using hpx
        exact ha x hx ⟨hkeys.1.trans hx'.1.symm, hkeys.2.trans hx'.2.symm⟩
      rw [hnil]
      exact Nat.le_refl 1
    · rw [List.filter_cons_of_neg (by simpa using hm)]
      exact ih hrest u p

/-- C5: add-to-cart is merge-or-create.  It preserves the invariant that
at most one cart row exists per (user, product) pair, and from a cart with
no row for (uid, pid) two successive adds with quantities `q1` and `q2`
leave exactly one row for the pair, carrying quantity `q1 + q2`. -/
theorem cart_add_merge_or_create
    (db : DB) (uid pid q1 q2 n1 n2 : Nat) :
    (∀ (db' : DB) (uid' pid' q n : Nat),
        atMostOnePerPair db'.carts →
        atMostOnePerPair (cart_add db' uid' pid' q n).carts) ∧
    (db.carts.filter (samePair uid pid) = [] →
      (cart_add (cart_add db uid pid q1 n1) uid pid q2 n2).carts.filter
          (samePair uid pid)
        = [⟨n1, uid, pid, q1 + q2⟩]) := by
  constructor
  · intro db' uid' pid' q n hinv u p
    unfold cart_add
    rcases hf : db'.carts.find? (samePair uid' pid') with _ | found
    · dsimp only
      rw [List.filter_append]
      by_cases hup : samePair u p ⟨n, uid', pid', q⟩
      · have hself : samePair uid' pid' (⟨n, uid', pid', q⟩ : CartItem) = true := by
          unfold samePair
          simp
        have hkeys : uid' = u ∧ pid' = p := by
          unfold samePair at hup
          simpa using hup
        have hnil : db'.carts.filter (samePair u p) = [] := by
          rw [List.filter_eq_nil_iff]
          intro x hx
          rcases hkeys with ⟨rfl, rfl⟩
          simpa using List.find?_eq_none.mp hf x hx
        rw [hnil, List.filter_cons_of_pos hup]
        simp
      · rw [List.filter_cons_of_neg (by simpa using hup)]
        simpa using hinv u p
    · dsimp only
      rw [length_filter_bumpFirst]
      exact hinv u p
  · intro hempty
    have hnomatch : ∀ x ∈ db.carts, ¬ samePair uid pid x = true :=
      fun x hx => by simpa using List.filter_eq_nil_iff.mp hempty x hx
    have hfind1 : db.carts.find? (samePair uid pid) = none :=
      List.find?_eq_none.mpr hnomatch
    have hself : samePair uid pid (⟨n1, uid, pid, q1⟩ : CartItem) = true := by
      unfold samePair
      simp
    have step1 : cart_add db uid pid q1 n1
        = { db with carts := db.carts ++ [⟨n1, uid, pid, q1⟩] } := by
      unfold cart_add
      rw [hfind1]
    have hfind2 : (db.carts ++ [(⟨n1, uid, pid, q1⟩ : CartItem)]).find?
        (samePair uid pid) = some ⟨n1, uid, pid, q1⟩ := by
      rw [List.find?_append, List.find?_eq_none.mpr hnomatch]
      simp [hself]
    have step2 : cart_add (cart_add db uid pid q1 n1) uid pid q2 n2
        = { db with carts := db.carts ++ [⟨n1, uid, pid, q1 + q2⟩] } := by
      rw [step1]
      unfold cart_add
      dsimp only
      rw [hfind2]
      dsimp only
      rw [bumpFirst_append_fresh uid pid q2 _ hself db.carts hnomatch]
    rw [step2]
    dsimp only
    rw [List.filter_append, hempty, List.nil_append,
        List.filter_cons_of_pos (by unfold samePair; simp)]
    rfl

/-- Witness for C5: user 1 has no row yet for product 3 in the concrete
store; adding 2 then 5 yields one row with quantity 7, and the invariant
carries over the first add. -/
theorem cart_add_merge_or_create_witness :
    atMostOnePerPair (cart_add exDB 1 3 2 9).carts ∧
    (cart_add (cart_add exDB 1 3 2 9) 1 3 5 10).carts.filter (samePair 1 3)
      = [⟨9, 1, 3, 2 + 5⟩] :=
  ⟨(cart_add_merge_or_create exDB 1 3 2 5 9 10).1 exDB 1 3 2 9
      (atMostOnePerPair_of_pairwise (by decide)),
   (cart_add_merge_or_create exDB 1 3 2 5 9 10).2 (by decide)⟩

/-- Resolution fails exactly when some cart line's product is dangling. -/
theorem resolveItems_eq_none_iff (db : DB) :
    ∀ items : List CartItem,
      resolveItems db items = none ↔
        ∃ it ∈ items, getProduct db it.product_id = none := by
  intro items
  induction items with
  | nil => simp [resolveItems]
  | cons it rest ih =>
    unfold resolveItems
    rcases hp : getProduct db it.product_id with _ | p
    · simp [hp]
    · rcases hr : resolveItems db rest with _ | l
      · simp only [hp]
        constructor
        · intro _
          obtain ⟨x, hx, hdx⟩ := ih.mp hr
          exact ⟨x, List.mem_cons_of_mem it hx, hdx⟩
        · intro _
          trivial
      · simp only [hp]
        constructor
        · intro h
          cases h
        · intro h
          obtain ⟨x, hx, hdx⟩ := h
          rcases List.mem_cons.mp hx with rfl | hmem
          · rw [hp] at hdx
            cases hdx
          · have : resolveItems db rest = none := ih.mpr ⟨x, hmem, hdx⟩
            rw [this] at hr
            cases hr

/-- On a fully resolvable cart the checkout total agrees with the cart
view total. -/
theorem resolveItems_sum (db : DB) :
    ∀ {items : List CartItem} {resolved : List (Product × CartItem)},
      resolveItems db items = some resolved →
      (resolved.map (fun pi => truthyOr pi.1.price 0 * (pi.2.quantity : ℚ))).sum
        = cartViewTotal db items := by
  intro items
  induction items with
  | nil =>
    intro resolved h
    cases h
    simp [cartViewTotal]
  | cons it rest ih =>
    intro resolved h
    unfold resolveItems at h
    rcases hp : getProduct db it.product_id with _ | p <;> rw [hp] at h
    · cases h
    · rcases hr : resolveItems db rest with _ | l <;> rw [hr] at h
      · cases h
      · cases h
        unfold cartViewTotal
        simp only [List.map_cons, List.sum_cons, hp, truthyOr_zero]
        have := ih hr
        unfold cartViewTotal at this
        simp only [truthyOr_zero] at this
        rw [this]

/-- Unfolding equation of the cart-view total on a cons cell. -/
theorem cartViewTotal_cons (db : DB) (it : CartItem) (rest : List CartItem) :
    cartViewTotal db (it :: rest) =
      (match getProduct db it.product_id with
       | some p => p.price
       | none => 0) * (it.quantity : ℚ) + cartViewTotal db rest := by
  unfold cartViewTotal
  rw [List.map_cons, List.sum_cons]

/-- Dropping the dangling lines does not change the cart-view total. -/
theorem cartViewTotal_filter_resolvable (db : DB) :
    ∀ items : List CartItem,
      cartViewTotal db items = cartViewTotal db
        (items.filter (fun it => (getProduct db it.product_id).isSome)) := by
  intro items
  induction items with
  | nil => rfl
  | cons it rest ih =>
    rcases hp : getProduct db it.product_id with _ | p
    · rw [cartViewTotal_cons, List.filter_cons_of_neg (by simp [hp]), hp, ih]
      simp
    · rw [cartViewTotal_cons, List.filter_cons_of_pos (by simp [hp]),
          cartViewTotal_cons, hp, ih]

/-- A store in which user 1's cart references product 99, which does not
exist in the product table (a dangling reference). -/
def exDanglingDB : DB :=
  { users := [⟨1, "a@example.com", "h0"⟩]
    products := [⟨1, "Widget", 10⟩]
    carts := [⟨1, 1, 1, 2⟩, ⟨2, 1, 99, 3⟩]
    orders := []
    order_items := [] }

/-- Counterexample to C6 as stated: with a dangling product reference the
cart view indeed counts it as zero, but the confirm and checkout handlers
do not — they fail with an attribute error instead of computing a total. -/
theorem cart_total_dangling_counterexample :
    cartViewTotal exDanglingDB (userCart exDanglingDB 1) = 20 ∧
    checkoutTotal exDanglingDB (userCart exDanglingDB 1) = none ∧
    (cart_confirm exDanglingDB exSession 1 none).2.2 = ConfirmOutcome.attrError ∧
    (cart_checkout exDanglingDB exSession 1 exUuid 7).2.2
      = CheckoutOutcome.attrError := by
  refine ⟨?_, by decide, by decide, by decide⟩
  norm_num [cartViewTotal, userCart, exDanglingDB, getProduct]

/-- C6 amended: the cart-view total counts a dangling reference as zero
(dropping dangling lines does not change it), while the confirm/checkout
total errors exactly when some line is dangling and otherwise agrees with
the cart-view total. -/
theorem cart_total_dangling_amended (db : DB) (items : List CartItem) :
    cartViewTotal db items = cartViewTotal db
      (items.filter (fun it => (getProduct db it.product_id).isSome)) ∧
    (checkoutTotal db items = none ↔
      ∃ it ∈ items, getProduct db it.product_id = none) ∧
    ((∀ it ∈ items, (getProduct db it.product_id).isSome) →
      checkoutTotal db items = some (cartViewTotal db items)) := by
  refine ⟨cartViewTotal_filter_resolvable db items, ?_, ?_⟩
  · unfold checkoutTotal
    rcases hr : resolveItems db items with _ | l
    · exact iff_of_true rfl ((resolveItems_eq_none_iff db items).mp hr)
    · rw [Option.map_some']
      constructor
      · intro h
        cases h
      · intro h
        have hnone : resolveItems db items = none :=
          (resolveItems_eq_none_iff db items).mpr h
        rw [hnone] at hr
        cases hr
  · intro hall
    rcases hr : resolveItems db items with _ | l
    · obtain ⟨it, hit, hd⟩ := (resolveItems_eq_none_iff db items).mp hr
      have := hall it hit
      rw [hd] at this
      cases this
    · unfold checkoutTotal
      rw [hr, Option.map_some']
      exact congrArg some (resolveItems_sum db hr)

/-- Witness for the amended C6 on the fully resolvable concrete store. -/
theorem cart_total_dangling_amended_witness :
    cartViewTotal exDB (userCart exDB 1) = cartViewTotal exDB
      ((userCart exDB 1).filter (fun it => (getProduct exDB it.product_id).isSome)) ∧
    checkoutTotal exDB (userCart exDB 1) = some (cartViewTotal exDB (userCart exDB 1)) :=
  ⟨(cart_total_dangling_amended exDB (userCart exDB 1)).1,
   (cart_total_dangling_amended exDB (userCart exDB 1)).2.2 (by decide)⟩

/-- C7: with a (non-empty) stored code and an expiry present in the
session, a submitted code advances to Verified iff it equals the stored
code and the clock has not passed the expiry; a passed expiry restarts the
flow, a mere mismatch retries this step, and an absent code or expiry
restarts the flow. -/
theorem verify_code_accepts_iff
    (s : Session) (now : Nat) (code saved : String) (expiry : Nat)
    (hc : s.reset_code = some saved)
    (hne : saved ≠ "")
    (he : s.reset_expiry = some expiry) :
    (verify_code s now code = VerifyOutcome.verified ↔
      (code = saved ∧ now ≤ expiry)) ∧
    (expiry < now → verify_code s now code = VerifyOutcome.restartForgot) ∧
    (now ≤ expiry → code ≠ saved →
      verify_code s now code = VerifyOutcome.retryVerify) ∧
    (∀ s' : Session, s'.reset_code = none ∨ s'.reset_expiry = none →
      verify_code s' now code = VerifyOutcome.restartForgot) := by
  have hbase : verify_code s now code =
      (if saved = "" then VerifyOutcome.restartForgot
       else if expiry < now then VerifyOutcome.restartForgot
       else if code ≠ saved then VerifyOutcome.retryVerify
       else VerifyOutcome.verified) := by
    unfold verify_code
    rw [hc, he]
  rw [hbase, if_neg hne]
  refine ⟨?_, ?_, ?_, ?_⟩
  · by_cases hlt : expiry < now
    · rw [if_pos hlt]
      constructor
      · intro h
        cases h
      · intro ⟨_, hle⟩
        omega
    · rw [if_neg hlt]
      by_cases hcs : code = saved
      · rw [if_neg (by simpa using hcs)]
        exact iff_of_true rfl ⟨hcs, by omega⟩
      · rw [if_pos hcs]
        constructor
        · intro h
          cases h
        · intro ⟨h, _⟩
          exact absurd h hcs
  · intro hlt
    rw [if_pos hlt]
  · intro hle hne2
    rw [if_neg (by omega), if_pos hne2]
  · intro s' h
    unfold verify_code
    rcases hc' : s'.reset_code with _ | c'
    · rcases s'.reset_expiry with _ | e' <;> rfl
    · rcases he' : s'.reset_expiry with _ | e'
      · rfl
      · rcases h with h | h
        · rw [hc'] at h
          cases h
        · rw [he'] at h
          cases h

/-- A session holding a pending reset challenge (code `123456`, expiry at
time 100) for the concrete user. -/
def exResetSession : Session :=
  { payment_method := none
    reset_email := some "a@example.com"
    reset_code := some "123456"
    reset_expiry := some 100 }

/-- Witness for C7: the concrete challenge at time 50 with a matching
submission. -/
theorem verify_code_accepts_iff_witness :
    (verify_code exResetSession 50 "123456" = VerifyOutcome.verified ↔
      ("123456" = "123456" ∧ 50 ≤ 100)) ∧
    (100 < 50 → verify_code exResetSession 50 "123456" = VerifyOutcome.restartForgot) ∧
    (50 ≤ 100 → "123456" ≠ "123456" →
      verify_code exResetSession 50 "123456" = VerifyOutcome.retryVerify) ∧
    (∀ s' : Session, s'.reset_code = none ∨ s'.reset_expiry = none →
      verify_code s' 50 "123456" = VerifyOutcome.restartForgot) :=
  verify_code_accepts_iff exResetSession 50 "123456" "123456" 100
    rfl (by decide) rfl

/-- C8 (bug evidence): the remove handler queries
`filter_by(item_id=…, user_id=…)`, but `item_id` is not a mapped column of
`Cart` (the column is `id`), so the query layer raises
`InvalidRequestError` on every request — no cart row is ever deleted, and
no NotFound is ever signalled, for any store, user and item id. -/
theorem cart_remove_always_raises (db : DB) (uid item_id : Nat) :
    cart_remove db uid item_id = Except.error QueryError.invalidRequest := rfl

/-- C9: the reset-password submit is gated only on `reset_email`.  If the
session names an existing user and the new password is non-empty and equal
to its confirmation, the handler rehashes and persists that user's
password — and neither the users table nor the outcome (nor, on success,
the final session) depends on the `reset_code` / `reset_expiry` keys, so
the password can be changed even if no code was ever verified or the code
has expired. -/
theorem reset_password_ignores_code
    (db : DB) (s : Session) (hash : String → String)
    (newPw confirmPw email : String) (u : MyUser)
    (he : s.reset_email = some email)
    (hu : db.users.find? (fun x => x.email == email) = some u)
    (hne : newPw ≠ "")
    (heq : newPw = confirmPw) :
    (reset_password db s hash true newPw confirmPw).2.2 = ResetOutcome.success ∧
    (reset_password db s hash true newPw confirmPw).1.users
      = db.users.map (fun x =>
          if x.id == u.id then { x with password_hash := hash newPw } else x) ∧
    (∀ c : Option String, ∀ e : Option Nat,
      reset_password db { s with reset_code := c, reset_expiry := e }
          hash true newPw confirmPw
        = reset_password db s hash true newPw confirmPw) := by
  have hbase : ∀ c : Option String, ∀ e : Option Nat,
      reset_password db { s with reset_code := c, reset_expiry := e }
          hash true newPw confirmPw
        = ({ db with users := db.users.map (fun x =>
              if x.id == u.id then { x with password_hash := hash newPw } else x) },
           { s with reset_email := none, reset_code := none, reset_expiry := none },
           ResetOutcome.success) := by
    intro c e
    unfold reset_password
    rw [show ({ s with reset_code := c, reset_expiry := e } : Session).reset_email
          = some email from he]
    dsimp only
    rw [hu]
    dsimp only
    rw [if_neg (show ¬(newPw = "" ∨ newPw ≠ confirmPw) by
      rintro (h | h)
      · exact hne h
      · exact h heq)]
    rw [if_neg (show ¬((!true) = true) by decide)]
  have hs : reset_password db s hash true newPw confirmPw
      = ({ db with users := db.users.map (fun x =>
            if x.id == u.id then { x with password_hash := hash newPw } else x) },
         { s with reset_email := none, reset_code := none, reset_expiry := none },
         ResetOutcome.success) := by
    have := hbase s.reset_code s.reset_expiry
    rwa [show ({ s with reset_code := s.reset_code, reset_expiry := s.reset_expiry }
          : Session) = s from rfl] at this
  refine ⟨by rw [hs], by rw [hs], ?_⟩
  intro c e
  rw [hbase c e, hs]

/-- Witness for C9: the concrete user's password is reset through a
session whose challenge keys are still the untouched (never verified)
ones; varying them does not change the result. -/
theorem reset_password_ignores_code_witness :
    (reset_password exDB exResetSession (fun p => String.append "H:" p)
        true "npw" "npw").2.2 = ResetOutcome.success ∧
    (reset_password exDB exResetSession (fun p => String.append "H:" p)
        true "npw" "npw").1.users
      = exDB.users.map (fun x =>
          if x.id == 1 then { x with password_hash := String.append "H:" "npw" } else x) ∧
    (∀ c : Option String, ∀ e : Option Nat,
      reset_password exDB { exResetSession with reset_code := c, reset_expiry := e }
          (fun p => String.append "H:" p) true "npw" "npw"
        = reset_password exDB exResetSession (fun p => String.append "H:" p)
            true "npw" "npw") :=
  reset_password_ignores_code exDB exResetSession (fun p => String.append "H:" p)
    "npw" "npw" "a@example.com" ⟨1, "a@example.com", "h0"⟩
    rfl (by decide) (by decide) rfl

/-- C10: the order-confirmation view performs no ownership check: it
yields the 404 outcome exactly when no order with the requested id exists;
otherwise it returns an order with that id — and the result is the same
whichever authenticated user asks, so an order belonging to a different
user is rendered all the same. -/
theorem order_confirmation_no_ownership
    (db : DB) (uid order_id : Nat) :
    (order_confirmation db uid order_id = none ↔
      ∀ o ∈ db.orders, o.id ≠ order_id) ∧
    (∀ o', order_confirmation db uid order_id = some o' →
      o' ∈ db.orders ∧ o'.id = order_id) ∧
    (∀ uid' : Nat, order_confirmation db uid order_id
      = order_confirmation db uid' order_id) := by
  refine ⟨?_, ?_, fun _ => rfl⟩
  · unfold order_confirmation
    rw [List.find?_eq_none]
    constructor
    · intro h o ho
      simpa using h o ho
    · intro h o ho
      simpa using h o ho
  · intro o' h
    unfold order_confirmation at h
    refine ⟨List.mem_of_find?_eq_some h, ?_⟩
    simpa using List.find?_some h

/-- An order that belongs to user 2. -/
def exOrder : Order :=
  { id := 5
    order_number := "ORD-3F2A9C04BD".data
    user_id := 2
    total_amount := 10
    shipping := 0
    status := "Processing" }

/-- A store holding only user 2's order. -/
def exOrderDB : DB :=
  { users := []
    products := []
    carts := []
    orders := [exOrder]
    order_items := [] }

/-- Witness for C10: user 1 requesting user 2's order gets the same
result as user 2, and the rendered order is the stored one with id 5. -/
theorem order_confirmation_no_ownership_witness :
    order_confirmation exOrderDB 1 5 = order_confirmation exOrderDB 2 5 ∧
    (exOrder ∈ exOrderDB.orders ∧ exOrder.id = 5) :=
  ⟨(order_confirmation_no_ownership exOrderDB 1 5).2.2 2,
   (order_confirmation_no_ownership exOrderDB 1 5).2.1 exOrder (by decide)⟩
